import Mathlib

/-
Shallow embedding of the python-env-benchmark aggregation, scoring, and
reporting pipeline.

Source files embedded:
- `evaluate_dx.py`: the DX command runner (`run_command`), the scenario
  table (`DX_SCENARIOS`), and the per-tool DX evaluation
  (`evaluate_tool_dx`).
- `test_reproducibility.py`: the reproducibility verdict computed at the
  end of `test_tool_reproducibility`.
- `generate_report.py`: the hash-consistency predicate of
  `generate_hash_comparison_chart`, the speed normalization and unified
  weighted score of `generate_unified_score_chart`, and the descending
  ranking of `generate_markdown_report`.
- `test_benchmark.py`: the per-tool installation loop of
  `test_installation_speed` with its fatal keyword abort.

Modelling conventions: Python floats are idealized as `ℚ`; Python float
division is `pydiv`, which is `none` exactly when Python raises
`ZeroDivisionError`; a Python list comprehension whose body may raise is
`optionMapM`, which is `none` as soon as one element raises; external
process execution is a parameter (an `ExecOutcome`-valued function), since
the spawned tools are opaque collaborators; `sys.exit(1)` inside the
installation loop makes the whole loop return `none`.
-/

namespace PyEnvBenchmark

/-! ### Python string primitives -/

/-- Boolean test that the first character list is a prefix of the second. -/
def listPre : List Char → List Char → Bool
  | [], _ => true
  | _ :: _, [] => false
  | a :: as, b :: bs => a == b && listPre as bs

/-- Boolean test that `needle` occurs as a contiguous run inside the list. -/
def listSub (needle : List Char) : List Char → Bool
  | [] => needle.isEmpty
  | c :: cs => listPre needle (c :: cs) || listSub needle cs

/-- Python's `needle in hay` substring test on strings. -/
def pyIn (needle hay : String) : Bool := listSub needle.data hay.data

/-- Python's `str.lower()`, mapping each character to lower case. -/
def pyLower (s : String) : String := ⟨s.data.map Char.toLower⟩

/-! ### Command runner (`evaluate_dx.run_command`) -/

/-- Outcome of spawning one external process: it completed with an exit
code and captured streams, hit the timeout, or raised an exception that
the runner catches. The spawned tools are opaque, so this is the
environment's input to the embedding. -/
inductive ExecOutcome where
  | completed (returncode : Int) (stdout stderr : String)
  | timedOut
  | raised (msg : String)
deriving DecidableEq

/-- Result record of `run_command` in `evaluate_dx.py` (lines 78-114):
on completion `success` is `returncode == 0`; on timeout it synthesizes
returncode `-1` with a sentinel stderr; on a caught exception it
synthesizes returncode `-1` with the exception text. -/
structure CmdResult where
  command : String
  returncode : Int
  stdout : String
  stderr : String
  success : Bool
deriving DecidableEq

/-- The DX command runner `run_command` of `evaluate_dx.py`. -/
def run_command (command : String) (outcome : ExecOutcome) : CmdResult :=
  match outcome with
  | .completed rc out err =>
      { command := command, returncode := rc, stdout := out, stderr := err,
        success := rc == 0 }
  | .timedOut =>
      { command := command, returncode := -1, stdout := "",
        stderr := "Command timed out after 120 seconds", success := false }
  | .raised msg =>
      { command := command, returncode := -1, stdout := "",
        stderr := msg, success := false }

/-- Run a command in the environment `exec`, which assigns each command
string the outcome of actually executing it. -/
def runWith (exec : String → ExecOutcome) (command : String) : CmdResult :=
  run_command command (exec command)

/-! ### DX scenario table and evaluator (`evaluate_dx.py`) -/

/-- One entry of the `DX_SCENARIOS` table: a named scenario with one
shell command per tool. -/
structure DxScenario where
  name : String
  description : String
  commands : List (String × String)
deriving DecidableEq

/-- The fixed `DX_SCENARIOS` table of `evaluate_dx.py` (lines 14-75). -/
def DX_SCENARIOS : List DxScenario :=
  [ { name := "add_dependency"
      description := "Add a new dependency"
      commands :=
        [ ("poetry", "poetry add pyyaml")
        , ("piptools", "echo \x27pyyaml\x27 >> requirements.in && pip-compile requirements.in && pip install -r requirements.txt")
        , ("uv", "uv pip install pyyaml")
        , ("make", "echo \x27pyyaml\x27 >> requirements.txt && make install") ] }
  , { name := "remove_dependency"
      description := "Remove a dependency"
      commands :=
        [ ("poetry", "poetry remove black")
        , ("piptools", "sed -i.bak \x27/black/d\x27 requirements.in && pip-compile requirements.in && pip install -r requirements.txt")
        , ("uv", "uv pip uninstall -y black")
        , ("make", "sed -i.bak \x27/black/d\x27 requirements.txt && make install") ] }
  , { name := "install_specific_version"
      description := "Install a specific version of a package"
      commands :=
        [ ("poetry", "poetry add requests==2.25.1")
        , ("piptools", "echo \x27requests==2.25.1\x27 >> requirements.in && pip-compile requirements.in && pip install -r requirements.txt")
        , ("uv", "uv pip install requests==2.25.1")
        , ("make", "echo \x27requests==2.25.1\x27 >> requirements.txt && make install") ] }
  , { name := "resolve_conflict"
      description := "Resolve a dependency conflict"
      commands :=
        [ ("poetry", "poetry add flask==2.0.0 werkzeug==2.0.0")
        , ("piptools", "echo \x27flask==2.0.0\x27 >> requirements.in && echo \x27werkzeug==2.0.0\x27 >> requirements.in && pip-compile requirements.in || echo \x27Conflict detected\x27")
        , ("uv", "uv pip install flask==2.0.0 werkzeug==2.0.0 || echo \x27Conflict detected\x27")
        , ("make", "echo \x27flask==2.0.0\x27 >> requirements.txt && echo \x27werkzeug==2.0.0\x27 >> requirements.txt && make install || echo \x27Conflict detected\x27") ] }
  , { name := "error_messages"
      description := "Test error message clarity with invalid package"
      commands :=
        [ ("poetry", "poetry add nonexistentpackage123456789")
        , ("piptools", "echo \x27nonexistentpackage123456789\x27 >> requirements.in && pip-compile requirements.in")
        , ("uv", "uv pip install nonexistentpackage123456789")
        , ("make", "echo \x27nonexistentpackage123456789\x27 >> requirements.txt && make install") ] }
  , { name := "upgrade_all"
      description := "Upgrade all dependencies"
      commands :=
        [ ("poetry", "poetry update")
        , ("piptools", "pip-compile --upgrade requirements.in && pip install -r requirements.txt")
        , ("uv", "uv pip install --upgrade -r requirements.txt")
        , ("make", "pip install --upgrade -r requirements.txt") ] } ]

/-- One recorded scenario result of `evaluate_tool_dx` (lines 173-181). -/
structure DxScenarioResult where
  name : String
  description : String
  command : String
  success : Bool
  returncode : Int
  error : Option String
  output : String
deriving DecidableEq

/-- The per-tool record returned by `evaluate_tool_dx`: `setup_error` is
present exactly when the setup step failed. -/
structure DxToolResult where
  tool : String
  scenarios : List DxScenarioResult
  setup_error : Option String
deriving DecidableEq

/-- The `prepare_environment` setup step: it runs the tool's install
script through `run_command` (file copying is incidental glue and has no
bearing on the returned record). -/
def prepare_environment (tool : String) (exec : String → ExecOutcome) : CmdResult :=
  runWith exec ("./scripts/install_" ++ tool ++ ".sh")

/-- The `evaluate_tool_dx` function of `evaluate_dx.py` (lines 134-187):
if setup fails, record the setup stderr and produce no scenario results;
otherwise iterate `DX_SCENARIOS` in order, skipping scenarios whose
command for the tool is missing or empty, wrapping a venv activation
prefix around pip commands for non-poetry tools, and recording each
scenario's outcome with the error field only on failure and the stdout
truncated at 500 characters with an ellipsis marker. -/
def evaluate_tool_dx (tool : String) (exec : String → ExecOutcome) : DxToolResult :=
  let setup_result := prepare_environment tool exec
  if setup_result.success = false then
    { tool := tool, scenarios := [], setup_error := some setup_result.stderr }
  else
    { tool := tool
      setup_error := none
      scenarios := DX_SCENARIOS.filterMap (fun scenario =>
        match scenario.commands.lookup tool with
        | none => none
        | some cmd =>
          if cmd = "" then none
          else
            let command :=
              if (pyIn "pip-compile" cmd || pyIn "pip install" cmd)
                  && tool != "poetry" then
                "source .venv/bin/activate && " ++ cmd
              else cmd
            let result := runWith exec command
            some { name := scenario.name
                   description := scenario.description
                   command := command
                   success := result.success
                   returncode := result.returncode
                   error := if result.success then none else some result.stderr
                   output := if result.stdout.length > 500 then
                               result.stdout.take 500 ++ "..."
                             else result.stdout }) }

/-! ### Reproducibility verdicts -/

/-- The reproducibility verdict of `test_tool_reproducibility`
(`test_reproducibility.py` line 168):
`len(set(hashes)) == 1 and None not in hashes`. A missing per-iteration
hash is `none`; `dedup.length` is the number of distinct list elements,
i.e. the size of Python's `set(hashes)`. -/
def is_reproducible (hashes : List (Option String)) : Bool :=
  decide (hashes.dedup.length = 1) && decide (¬ (none : Option String) ∈ hashes)

/-- The hash-consistency predicate of `generate_hash_comparison_chart`
(`generate_report.py` line 130):
`len(set(h for h in hashes if h is not None)) <= 1 and None not in hashes`. -/
def is_consistent (hashes : List (Option String)) : Bool :=
  decide ((hashes.filterMap id).dedup.length ≤ 1)
    && decide (¬ (none : Option String) ∈ hashes)

/-! ### Speed normalization and unified score (`generate_unified_score_chart`) -/

/-- Python float division: `none` models the `ZeroDivisionError` raised
on a zero divisor. -/
def pydiv (a b : ℚ) : Option ℚ := if b = 0 then none else some (a / b)

/-- A Python list comprehension whose body may raise: the whole
comprehension raises (`none`) as soon as one element does. -/
def optionMapM (f : α → Option β) : List α → Option (List β)
  | [] => some []
  | a :: l =>
    match f a with
    | none => none
    | some b => (optionMapM f l).map (b :: ·)

/-- The entry `valid_times = [t for t in install_times if t is not None]`
(line 392). -/
def validTimes (ts : List (Option ℚ)) : List ℚ := ts.filterMap id

/-- Python's `max` over a list; `none` on the empty list (where Python
raises). -/
def pyMax : List ℚ → Option ℚ
  | [] => none
  | x :: xs => some (xs.foldl max x)

/-- Python's `min` over a list; `none` on the empty list. -/
def pyMin : List ℚ → Option ℚ
  | [] => none
  | x :: xs => some (xs.foldl min x)

/-- Body of the speed-score comprehension (line 396):
`100 * (1 - ((t - min_time) / (max_time - min_time)))` for a recorded
time, and the literal `0` for a tool with no recorded time. -/
def speedScore1 (minT maxT : ℚ) : Option ℚ → Option ℚ
  | none => some 0
  | some t => (pydiv (t - minT) (maxT - minT)).map (fun q => 100 * (1 - q))

/-- The speed normalization of `generate_unified_score_chart`
(lines 392-398): with at least one recorded time, min-max normalize every
recorded time (raising on a zero range, hence `none`); with no recorded
time at all, every tool scores 0. -/
def speed_scores (install_times : List (Option ℚ)) : Option (List ℚ) :=
  match pyMax (validTimes install_times), pyMin (validTimes install_times) with
  | some maxT, some minT => optionMapM (speedScore1 minT maxT) install_times
  | _, _ => some (install_times.map (fun _ => 0))

/-- The unified-score loop of `generate_unified_score_chart`
(lines 423-432): per tool index, an out-of-range or `None` component
contributes 0, and the weights are speed 0.4, reproducibility 0.4,
DX 0.2 (idealized as exact rationals). -/
def unified_scores (tools : List String) (speedScoresL : List ℚ)
    (reproScores dxScores : List (Option ℚ)) : List ℚ :=
  (List.range tools.length).map (fun i =>
    let speed := speedScoresL.getD i 0
    let repro := (reproScores.getD i none).getD 0
    let dx := (dxScores.getD i none).getD 0
    speed * (2/5) + repro * (2/5) + dx * (1/5))

/-! ### Ranking (`generate_markdown_report`, lines 766-772) -/

/-- Ascending comparison used to model `np.argsort` on the unified
scores: index `i` precedes index `j` when its score is smaller, or on
equal scores when `i` comes first. This is exactly the stable ascending
argsort (numpy sorts arrays of this size with a stable insertion sort). -/
def rankRel (scores : List ℚ) (i j : ℕ) : Prop :=
  scores.getD i 0 < scores.getD j 0 ∨ (scores.getD i 0 = scores.getD j 0 ∧ i ≤ j)

instance (scores : List ℚ) : DecidableRel (rankRel scores) := fun _ _ => by
  unfold rankRel; exact inferInstance

/-- The emission order of the unified-score table:
`sorted_indices = np.argsort(unified_scores)[::-1]` — a stable ascending
argsort of the score list, reversed. -/
def sorted_indices (scores : List ℚ) : List ℕ :=
  (List.insertionSort (rankRel scores) (List.range scores.length)).reverse

/-! ### Installation benchmark loop (`test_benchmark.py`) -/

/-- Per-tool outcome of running the install script in
`test_installation_speed`. -/
structure InstallResult where
  returncode : Int
  stdout : String
  stderr : String
  execution_time : ℚ
deriving DecidableEq

/-- The fatal keyword list of `test_benchmark.py` line 132. -/
def failure_keywords : List String :=
  ["error", "exception", "no module named", "not found", "does not exist"]

/-- The abort condition of `test_installation_speed` (lines 128-134):
the keyword scan over lowercased stderr runs only under
`returncode != 0`. -/
def criticalFailure (r : InstallResult) : Bool :=
  r.returncode != 0 && failure_keywords.any (fun s => pyIn s (pyLower r.stderr))

/-- The per-tool loop of `test_installation_speed`: evaluate tools in
order and abort the whole process (`none`, modelling `sys.exit(1)`) at
the first tool whose result matches the critical-failure condition;
otherwise return the accumulated results for every tool. -/
def test_installation_speed (runTool : String → InstallResult) :
    List String → Option (List (String × InstallResult))
  | [] => some []
  | tool :: rest =>
    let result := runTool tool
    if criticalFailure result then none
    else (test_installation_speed runTool rest).map (fun tail => (tool, result) :: tail)

/-! ### Helper lemmas -/

/-- A duplicate-free list whose elements all equal `a` and which contains
`a` is the singleton `[a]`. -/
theorem nodup_all_eq_singleton {α : Type} {l : List α} {a : α} (hn : l.Nodup)
    (ha : a ∈ l) (hall : ∀ x ∈ l, x = a) : l = [a] := by
  cases l with
  | nil => cases ha
  | cons b t =>
    have hb : b = a := hall b (List.mem_cons_self b t)
    subst hb
    have ht : t = [] := by
      cases t with
      | nil => rfl
      | cons c u =>
        rw [List.nodup_cons] at hn
        have hc : c = b := hall c (by simp)
        exact absurd (by simp [hc]) hn.1
    rw [ht]

/-- The number of distinct elements of a list is 1 exactly when the list
is nonempty and all its elements coincide. -/
theorem dedup_length_eq_one_iff {α : Type} [DecidableEq α] (l : List α) :
    l.dedup.length = 1 ↔ ∃ a, l ≠ [] ∧ ∀ x ∈ l, x = a := by
  constructor
  · intro h
    obtain ⟨a, ha⟩ := List.length_eq_one.mp h
    refine ⟨a, ?_, ?_⟩
    · intro hnil
      rw [hnil] at ha
      simp at ha
    · intro x hx
      have hxd : x ∈ l.dedup := List.mem_dedup.mpr hx
      rw [ha] at hxd
      simpa using hxd
  · rintro ⟨a, hne, hall⟩
    have hy := List.exists_mem_of_ne_nil l hne
    obtain ⟨y, hy⟩ := hy
    have hmem : a ∈ l := hall y hy ▸ hy
    have hd : l.dedup = [a] :=
      nodup_all_eq_singleton (List.nodup_dedup l)
        (List.mem_dedup.mpr hmem) (fun x hx => hall x (List.mem_dedup.mp hx))
    rw [hd]
    rfl

/-- The number of distinct elements of a list is at most 1 exactly when
any two of its elements coincide. -/
theorem dedup_length_le_one_iff {α : Type} [DecidableEq α] (l : List α) :
    l.dedup.length ≤ 1 ↔ ∀ x ∈ l, ∀ y ∈ l, x = y := by
  constructor
  · intro h x hx y hy
    rcases Nat.le_one_iff_eq_zero_or_eq_one.mp h with h0 | h1
    · have : l = [] := (List.dedup_eq_nil l).mp (List.length_eq_zero.mp h0)
      rw [this] at hx
      cases hx
    · obtain ⟨a, _, hall⟩ := (dedup_length_eq_one_iff l).mp h1
      rw [hall x hx, hall y hy]
  · intro h
    by_cases hnil : l = []
    · subst hnil
      simp
    · obtain ⟨y, hy⟩ := List.exists_mem_of_ne_nil l hnil
      have hd : l.dedup = [y] :=
        nodup_all_eq_singleton (List.nodup_dedup l) (List.mem_dedup.mpr hy)
          (fun x hx => h x (List.mem_dedup.mp hx) y hy)
      rw [hd]
      exact le_refl 1

/-- When the body never raises, the comprehension returns the mapped
list. -/
theorem optionMapM_eq_map {α β : Type} (f : α → Option β) (g : α → β) :
    ∀ l : List α, (∀ a ∈ l, f a = some (g a)) → optionMapM f l = some (l.map g)
  | [], _ => rfl
  | a :: l, h => by
    have ha := h a (List.mem_cons_self a l)
    have hl := optionMapM_eq_map f g l (fun x hx => h x (List.mem_cons_of_mem a hx))
    simp [optionMapM, ha, hl]

/-! ### Claims -/

/-- C9: every result record produced by the DX command runner — whether
the process completed, timed out, or raised a caught exception —
satisfies `success = (returncode = 0)`: a scenario is recorded as
successful exactly when its exit code is zero. -/
theorem run_command_success_iff_zero (command : String) (outcome : ExecOutcome) :
    (run_command command outcome).success = true
      ↔ (run_command command outcome).returncode = 0 := by
  cases outcome with
  | completed rc out err =>
    simp [run_command]
  | timedOut =>
    simp [run_command]
  | raised msg =>
    simp [run_command]

/-- C3 record: on a tool set whose recorded installation times are all
equal, the source's speed normalization evaluates `(t - min) / (max - min)`
with a zero divisor, i.e. it raises `ZeroDivisionError` (`none` in this
embedding) instead of assigning every tool a score of 100. -/
theorem speed_scores_all_equal_raises :
    speed_scores [some 5, some 5] = none ∧ speed_scores [some 7] = none := by
  constructor
  · norm_num [speed_scores, validTimes, pyMax, pyMin, optionMapM, speedScore1, pydiv,
      List.filterMap_cons, List.foldl]
  · norm_num [speed_scores, validTimes, pyMax, pyMin, optionMapM, speedScore1, pydiv,
      List.filterMap_cons, List.foldl]

/-- C4: a tool is reported reproducible exactly when the collected hash
list has exactly one distinct value (equivalently, it is nonempty and
every iteration produced the same present hash) and no iteration produced
a missing hash; `[h, h, h]` is reproducible, `[h, h, None]` is not, three
pairwise distinct hashes are not, and any absent hash unconditionally
makes the tool not reproducible. -/
theorem reproducible_iff_single_hash (hashes : List (Option String))
    (h h1 h2 h3 : String) (d12 : h1 ≠ h2) (d13 : h1 ≠ h3) (d23 : h2 ≠ h3) :
    (is_reproducible hashes = true
      ↔ ∃ v : String, hashes ≠ [] ∧ ∀ x ∈ hashes, x = some v)
    ∧ ((none : Option String) ∈ hashes → is_reproducible hashes = false)
    ∧ is_reproducible [some h, some h, some h] = true
    ∧ is_reproducible [some h, some h, none] = false
    ∧ is_reproducible [some h1, some h2, some h3] = false := by
  have key : ∀ l : List (Option String),
      is_reproducible l = true
        ↔ ∃ v : String, l ≠ [] ∧ ∀ x ∈ l, x = some v := by
    intro l
    unfold is_reproducible
    rw [Bool.and_eq_true, decide_eq_true_iff, decide_eq_true_iff,
      dedup_length_eq_one_iff]
    constructor
    · rintro ⟨⟨a, hne, hall⟩, hnone⟩
      obtain ⟨y, hy⟩ := List.exists_mem_of_ne_nil l hne
      have ha : a ∈ l := hall y hy ▸ hy
      cases a with
      | none => exact absurd ha hnone
      | some v => exact ⟨v, hne, hall⟩
    · rintro ⟨v, hne, hall⟩
      refine ⟨⟨some v, hne, hall⟩, fun hn => ?_⟩
      cases hall none hn
  have knone : ∀ l : List (Option String),
      (none : Option String) ∈ l → is_reproducible l = false := by
    intro l hn
    rw [Bool.eq_false_iff]
    intro htrue
    obtain ⟨v, _, hall⟩ := (key l).mp htrue
    cases hall none hn
  refine ⟨key hashes, knone hashes, ?_, ?_, ?_⟩
  · exact (key _).mpr ⟨h, by simp, by simp⟩
  · exact knone _ (by simp)
  · rw [Bool.eq_false_iff]
    intro htrue
    obtain ⟨v, _, hall⟩ := (key _).mp htrue
    have e1 : some h1 = some v := hall _ (by simp)
    have e2 : some h2 = some v := hall _ (by simp)
    rw [Option.some.injEq] at e1 e2
    exact d12 (e1.trans e2.symm)

/-- C4 witness: the characterization instantiated at the hash list
`[some "a"]` with concrete pairwise-distinct hashes. -/
theorem reproducible_iff_single_hash_witness :
    (is_reproducible [some "a"] = true
      ↔ ∃ v : String, ([some "a"] : List (Option String)) ≠ []
          ∧ ∀ x ∈ ([some "a"] : List (Option String)), x = some v)
    ∧ ((none : Option String) ∈ ([some "a"] : List (Option String)) →
        is_reproducible [some "a"] = false)
    ∧ is_reproducible [some "a", some "a", some "a"] = true
    ∧ is_reproducible [some "a", some "a", none] = false
    ∧ is_reproducible [some "a", some "b", some "c"] = false :=
  reproducible_iff_single_hash [some "a"] "a" "a" "b" "c"
    (by decide) (by decide) (by decide)

/-- C10: on every nonempty hash list, the hash-consistency predicate of
the report's hash-comparison chart (at most one distinct present hash and
no absent entry) agrees with the reproducibility predicate of the
reproducibility tester (exactly one distinct value and no absent entry). -/
theorem consistent_agrees_with_reproducible (hashes : List (Option String))
    (hne : hashes ≠ []) :
    is_consistent hashes = is_reproducible hashes := by
  by_cases hn : (none : Option String) ∈ hashes
  · unfold is_consistent is_reproducible
    simp [hn]
  · unfold is_consistent is_reproducible
    rw [Bool.eq_iff_iff, Bool.and_eq_true, Bool.and_eq_true]
    simp only [decide_eq_true_iff]
    rw [dedup_length_le_one_iff, dedup_length_eq_one_iff]
    constructor
    · rintro ⟨hle, -⟩
      refine ⟨?_, hn⟩
      obtain ⟨y, hy⟩ := List.exists_mem_of_ne_nil hashes hne
      refine ⟨y, hne, fun x hx => ?_⟩
      cases hxv : x with
      | none => exact absurd (hxv ▸ hx) hn
      | some vx =>
        cases hyv : y with
        | none => exact absurd (hyv ▸ hy) hn
        | some vy =>
          have hvx : vx ∈ hashes.filterMap id :=
            List.mem_filterMap.mpr ⟨some vx, hxv ▸ hx, rfl⟩
          have hvy : vy ∈ hashes.filterMap id :=
            List.mem_filterMap.mpr ⟨some vy, hyv ▸ hy, rfl⟩
          rw [hle vx hvx vy hvy]
    · rintro ⟨⟨a, _, hall⟩, -⟩
      refine ⟨?_, hn⟩
      intro x hx y hy
      obtain ⟨x0, hx0, hx0e⟩ := List.mem_filterMap.mp hx
      obtain ⟨y0, hy0, hy0e⟩ := List.mem_filterMap.mp hy
      simp only [id_eq] at hx0e hy0e
      have ex : some x = a := by rw [← hall x0 hx0, hx0e]
      have ey : some y = a := by rw [← hall y0 hy0, hy0e]
      have exy : some x = some y := ex.trans ey.symm
      exact Option.some_injective String exy

/-- C10 witness. -/
theorem consistent_agrees_with_reproducible_witness :
    is_consistent [some "a", some "a"] = is_reproducible [some "a", some "a"] :=
  consistent_agrees_with_reproducible [some "a", some "a"] (by decide)

/-- Element formula of the unified-score list. -/
theorem unified_scores_getD (tools : List String) (ss : List ℚ)
    (rs ds : List (Option ℚ)) (i : ℕ) (hi : i < tools.length) :
    (unified_scores tools ss rs ds).getD i 0
      = ss.getD i 0 * (2/5) + ((rs.getD i none).getD 0) * (2/5)
        + ((ds.getD i none).getD 0) * (1/5) := by
  unfold unified_scores
  rw [List.getD_eq_getElem _ _ (by simpa using hi)]
  rw [List.getElem_map, List.getElem_range]

/-- C1: for every tool index, the unified score is
`0.4 * speed + 0.4 * repro + 0.2 * dx`, a missing reproducibility or DX
component contributing 0; whenever all three components lie in [0, 100]
the unified score lies in [0, 100]; and speed 100, repro 100, dx 50 give
unified 90. -/
theorem unified_score_weighted_sum (tools : List String) (ss : List ℚ)
    (rs ds : List (Option ℚ)) (i : ℕ) (hi : i < tools.length) :
    ((unified_scores tools ss rs ds).getD i 0
        = ss.getD i 0 * (2/5) + ((rs.getD i none).getD 0) * (2/5)
          + ((ds.getD i none).getD 0) * (1/5))
    ∧ (rs.getD i none = none →
        (unified_scores tools ss rs ds).getD i 0
          = ss.getD i 0 * (2/5) + ((ds.getD i none).getD 0) * (1/5))
    ∧ (0 ≤ ss.getD i 0 → ss.getD i 0 ≤ 100 →
       0 ≤ (rs.getD i none).getD 0 → (rs.getD i none).getD 0 ≤ 100 →
       0 ≤ (ds.getD i none).getD 0 → (ds.getD i none).getD 0 ≤ 100 →
       0 ≤ (unified_scores tools ss rs ds).getD i 0
         ∧ (unified_scores tools ss rs ds).getD i 0 ≤ 100)
    ∧ unified_scores ["tool"] [100] [some 100] [some 50] = [90] := by
  refine ⟨unified_scores_getD tools ss rs ds i hi, ?_, ?_, ?_⟩
  · intro hnone
    rw [unified_scores_getD tools ss rs ds i hi, hnone]
    simp only [Option.getD_none, zero_mul, add_zero]
  · intro s0 s100 r0 r100 d0 d100
    rw [unified_scores_getD tools ss rs ds i hi]
    constructor
    · positivity
    · linarith
  · norm_num [unified_scores, List.range_succ, List.range_zero]

/-- C1 witness: the unified-score facts at one concrete tool list. -/
theorem unified_score_weighted_sum_witness :
    ((unified_scores ["a"] [80] [some 100] [some 50]).getD 0 0
        = ([(80:ℚ)].getD 0 0) * (2/5)
          + ((([some (100:ℚ)].getD 0 none).getD 0) * (2/5))
          + ((([some (50:ℚ)].getD 0 none).getD 0) * (1/5)))
    ∧ ([some (100:ℚ)].getD 0 none = none →
        (unified_scores ["a"] [80] [some 100] [some 50]).getD 0 0
          = ([(80:ℚ)].getD 0 0) * (2/5)
            + (([some (50:ℚ)].getD 0 none).getD 0) * (1/5))
    ∧ (0 ≤ [(80:ℚ)].getD 0 0 → [(80:ℚ)].getD 0 0 ≤ 100 →
       0 ≤ ([some (100:ℚ)].getD 0 none).getD 0 →
       ([some (100:ℚ)].getD 0 none).getD 0 ≤ 100 →
       0 ≤ ([some (50:ℚ)].getD 0 none).getD 0 →
       ([some (50:ℚ)].getD 0 none).getD 0 ≤ 100 →
       0 ≤ (unified_scores ["a"] [80] [some 100] [some 50]).getD 0 0
         ∧ (unified_scores ["a"] [80] [some 100] [some 50]).getD 0 0 ≤ 100)
    ∧ unified_scores ["tool"] [100] [some 100] [some 50] = [90] := by
  have hi : 0 < (["a"] : List String).length := by decide
  exact unified_score_weighted_sum ["a"] [80] [some 100] [some 50] 0 hi

/-- C2: with at least one recorded installation time and a strictly
positive range, every tool's speed score is
`100 * (1 - (t - min) / (max - min))`, a tool with no recorded time
scoring the literal 0; the formula assigns 100 at the minimum time and 0
at the maximum time. -/
theorem speed_score_minmax (ts : List (Option ℚ)) (minT maxT : ℚ)
    (hmax : pyMax (validTimes ts) = some maxT)
    (hmin : pyMin (validTimes ts) = some minT)
    (hlt : minT < maxT) :
    speed_scores ts = some (ts.map (fun t =>
        match t with
        | none => 0
        | some x => 100 * (1 - (x - minT) / (maxT - minT))))
    ∧ speedScore1 minT maxT none = some 0
    ∧ 100 * (1 - (minT - minT) / (maxT - minT)) = 100
    ∧ 100 * (1 - (maxT - minT) / (maxT - minT)) = 0 := by
  have hden : maxT - minT ≠ 0 := sub_ne_zero.mpr (ne_of_gt hlt)
  refine ⟨?_, rfl, ?_, ?_⟩
  · unfold speed_scores
    rw [hmax, hmin]
    refine optionMapM_eq_map _ _ ts ?_
    intro t ht
    cases t with
    | none => rfl
    | some x =>
      simp only [speedScore1, pydiv, if_neg hden, Option.map_some']
  · rw [sub_self, zero_div]
    norm_num
  · rw [div_self hden]
    norm_num

/-- C2 witness: tool times 1 and 3 with one absent tool give scores
100, 0, 0. -/
theorem speed_score_minmax_witness :
    speed_scores [some 1, some 3, none]
      = some (([some 1, some 3, none] : List (Option ℚ)).map (fun t =>
          match t with
          | none => 0
          | some x => 100 * (1 - (x - 1) / (3 - 1))))
    ∧ speedScore1 1 3 none = some 0
    ∧ (100:ℚ) * (1 - ((1:ℚ) - 1) / (3 - 1)) = 100
    ∧ (100:ℚ) * (1 - ((3:ℚ) - 1) / (3 - 1)) = 0 := by
  have hmax : pyMax (validTimes [some 1, some 3, none]) = some 3 := by
    simp only [validTimes, List.filterMap_cons, id_eq, List.filterMap_nil, pyMax,
      List.foldl]
    norm_num [max_def]
  have hmin : pyMin (validTimes [some 1, some 3, none]) = some 1 := by
    simp only [validTimes, List.filterMap_cons, id_eq, List.filterMap_nil, pyMin,
      List.foldl]
    norm_num [min_def]
  exact speed_score_minmax [some 1, some 3, none] 1 3 hmax hmin (by norm_num)

/-- Totality of the stable-argsort comparison. -/
theorem rankRel_total (scores : List ℚ) :
    ∀ i j, rankRel scores i j ∨ rankRel scores j i := by
  intro i j
  rcases lt_trichotomy (scores.getD i 0) (scores.getD j 0) with h | h | h
  · exact Or.inl (Or.inl h)
  · rcases Nat.le_total i j with hij | hij
    · exact Or.inl (Or.inr ⟨h, hij⟩)
    · exact Or.inr (Or.inr ⟨h.symm, hij⟩)
  · exact Or.inr (Or.inl h)

/-- Transitivity of the stable-argsort comparison. -/
theorem rankRel_trans (scores : List ℚ) :
    ∀ i j k, rankRel scores i j → rankRel scores j k → rankRel scores i k := by
  intro i j k hij hjk
  rcases hij with h1 | ⟨h1, hle1⟩
  · rcases hjk with h2 | ⟨h2, _⟩
    · exact Or.inl (h1.trans h2)
    · exact Or.inl (lt_of_lt_of_eq h1 h2)
  · rcases hjk with h2 | ⟨h2, hle2⟩
    · exact Or.inl (lt_of_eq_of_lt h1 h2)
    · exact Or.inr ⟨h1.trans h2, hle1.trans hle2⟩

/-- C5 counterexample: two tools with the equal unified score 1 are
emitted as index 1 before index 0 — the reverse of their insertion
order, not the insertion order `[0, 1]` the claim requires. -/
theorem ranking_tie_reversed_cex :
    sorted_indices [(1:ℚ), 1] = [1, 0]
      ∧ sorted_indices [(1:ℚ), 1] ≠ [0, 1] := by
  constructor
  · decide
  · decide

/-- C5 amended: the emitted ranking is a permutation of the tool indices
ordered by unified score descending, but two tools with equal unified
scores appear in reverse insertion order (the stable ascending argsort is
reversed wholesale, ties included). -/
theorem ranking_desc_ties_reversed (scores : List ℚ) :
    (sorted_indices scores).Perm (List.range scores.length)
    ∧ (sorted_indices scores).Pairwise (fun i j =>
        scores.getD j 0 < scores.getD i 0
        ∨ (scores.getD j 0 = scores.getD i 0 ∧ j ≤ i)) := by
  constructor
  · exact (List.reverse_perm _).trans (List.perm_insertionSort _ _)
  · haveI : IsTotal ℕ (rankRel scores) := ⟨rankRel_total scores⟩
    haveI : IsTrans ℕ (rankRel scores) := ⟨rankRel_trans scores⟩
    have hs := List.sorted_insertionSort (rankRel scores) (List.range scores.length)
    unfold sorted_indices
    rw [List.pairwise_reverse]
    exact hs.imp (fun h => h)

/-- C6 counterexample: a tool whose install stderr contains the failure
keyword "error" but whose install step exits with code 0 does NOT abort
the run — the keyword scan only runs under `returncode != 0`, so both
tools are evaluated and the run completes. -/
theorem install_keyword_zero_exit_no_abort :
    pyIn "error" (pyLower "error: warning text") = true
    ∧ "error" ∈ failure_keywords
    ∧ test_installation_speed
        (fun _ => { returncode := 0, stdout := "", stderr := "error: warning text",
                    execution_time := 1 })
        ["uv", "poetry"]
      = some
          [ ("uv", { returncode := 0, stdout := "", stderr := "error: warning text",
                     execution_time := 1 })
          , ("poetry", { returncode := 0, stdout := "", stderr := "error: warning text",
                         execution_time := 1 }) ] := by
  refine ⟨by decide, by decide, ?_⟩
  simp [test_installation_speed, criticalFailure]

/-- C6 amended: during the installation benchmark, for every tool whose
install step exits with a nonzero returncode AND whose captured stderr,
lowercased, contains one of the failure keywords, the entire run aborts
the process (`sys.exit(1)`, here `none`) provided no earlier tool
triggered the abort first, and no subsequent tool is evaluated (the
result is `none` for every choice of subsequent tools). -/
theorem install_abort_on_keyword_failure (runTool : String → InstallResult)
    (pre : List String) (tool : String) (post : List String)
    (hpre : ∀ u ∈ pre, criticalFailure (runTool u) = false)
    (hrc : (runTool tool).returncode ≠ 0)
    (hkw : ∃ s ∈ failure_keywords, pyIn s (pyLower (runTool tool).stderr) = true) :
    test_installation_speed runTool (pre ++ tool :: post) = none := by
  induction pre with
  | nil =>
    rw [List.nil_append]
    unfold test_installation_speed
    rw [if_pos]
    unfold criticalFailure
    rw [Bool.and_eq_true]
    constructor
    · exact bne_iff_ne.mpr hrc
    · rw [List.any_eq_true]
      obtain ⟨s, hs, hp⟩ := hkw
      exact ⟨s, hs, hp⟩
  | cons u us ih =>
    rw [List.cons_append]
    unfold test_installation_speed
    rw [if_neg, ih (fun v hv => hpre v (List.mem_cons_of_mem u hv))]
    · rfl
    · rw [hpre u (List.mem_cons_self u us)]
      exact Bool.false_ne_true

/-- C6 amended witness: the "make" tool passes, then "uv" fails with
exit code 1 and stderr containing "No module named", aborting before
"poetry". -/
theorem install_abort_on_keyword_failure_witness :
    test_installation_speed
      (fun t =>
        if t = "uv" then
          { returncode := 1, stdout := "", stderr := "ERROR: No module named pip",
            execution_time := 1 }
        else
          { returncode := 0, stdout := "done", stderr := "", execution_time := 1 })
      (["make"] ++ "uv" :: ["poetry"]) = none := by
  refine install_abort_on_keyword_failure _ ["make"] "uv" ["poetry"] ?_ ?_ ?_
  · intro u hu
    rw [List.mem_singleton] at hu
    subst hu
    decide
  · decide
  · exact ⟨"error", by decide, by decide⟩

/-- C7: for every tool whose DX setup step fails, the evaluation stops
before running any scenario: the returned record has an empty scenario
list and carries the setup stderr as its setup error. -/
theorem dx_setup_failure_aborts (tool : String) (exec : String → ExecOutcome)
    (h : (prepare_environment tool exec).success = false) :
    (evaluate_tool_dx tool exec).scenarios = []
    ∧ (evaluate_tool_dx tool exec).setup_error
        = some (prepare_environment tool exec).stderr := by
  unfold evaluate_tool_dx
  rw [if_pos h]
  exact ⟨rfl, rfl⟩

/-- C7 witness: a setup script exiting with code 1 and stderr "boom"
yields no scenarios and records the error. -/
theorem dx_setup_failure_aborts_witness :
    (evaluate_tool_dx "uv" (fun _ => .completed 1 "" "boom")).scenarios = []
    ∧ (evaluate_tool_dx "uv" (fun _ => .completed 1 "" "boom")).setup_error
        = some (prepare_environment "uv" (fun _ => .completed 1 "" "boom")).stderr :=
  dx_setup_failure_aborts "uv" (fun _ => .completed 1 "" "boom") (by decide)

/-- C8: every recorded DX scenario result carries the executed command's
full stdout when it has at most 500 characters and its first 500
characters followed by "..." otherwise, and carries the stderr text in
its error field exactly on failure (the error field is `none` on
success). -/
theorem dx_scenario_record_fields (tool : String) (exec : String → ExecOutcome)
    (sr : DxScenarioResult)
    (hmem : sr ∈ (evaluate_tool_dx tool exec).scenarios) :
    ((runWith exec sr.command).stdout.length ≤ 500 →
        sr.output = (runWith exec sr.command).stdout)
    ∧ (500 < (runWith exec sr.command).stdout.length →
        sr.output = (runWith exec sr.command).stdout.take 500 ++ "...")
    ∧ sr.success = (runWith exec sr.command).success
    ∧ (sr.success = true → sr.error = none)
    ∧ (sr.success = false → sr.error = some (runWith exec sr.command).stderr) := by
  unfold evaluate_tool_dx at hmem
  by_cases hs : (prepare_environment tool exec).success = false
  · rw [if_pos hs] at hmem
    simp at hmem
  · rw [if_neg hs] at hmem
    dsimp only at hmem
    rw [List.mem_filterMap] at hmem
    obtain ⟨sc, _, heq⟩ := hmem
    cases hlk : sc.commands.lookup tool with
    | none =>
      rw [hlk] at heq
      cases heq
    | some cmd =>
      rw [hlk] at heq
      dsimp only at heq
      by_cases hemp : cmd = ""
      · rw [if_pos hemp] at heq
        cases heq
      · rw [if_neg hemp] at heq
        rw [Option.some.injEq] at heq
        subst heq
        dsimp only
        refine ⟨?_, ?_, rfl, ?_, ?_⟩
        · intro h
          rw [if_neg (by omega)]
        · intro h
          rw [if_pos (by omega)]
        · intro h
          rw [if_pos h]
        · intro h
          rw [if_neg (by rw [h]; exact Bool.false_ne_true)]

/-- C8 witness: the "add_dependency" scenario for uv in an environment
whose commands all complete with exit code 0 and stdout "ok". -/
theorem dx_scenario_record_fields_witness :
    (((runWith (fun _ => .completed 0 "ok" "")
          "source .venv/bin/activate && uv pip install pyyaml").stdout.length ≤ 500 →
        "ok" = (runWith (fun _ => .completed 0 "ok" "")
          "source .venv/bin/activate && uv pip install pyyaml").stdout))
    ∧ (500 < (runWith (fun _ => .completed 0 "ok" "")
          "source .venv/bin/activate && uv pip install pyyaml").stdout.length →
        "ok" = (runWith (fun _ => .completed 0 "ok" "")
          "source .venv/bin/activate && uv pip install pyyaml").stdout.take 500 ++ "...")
    ∧ true = (runWith (fun _ => .completed 0 "ok" "")
          "source .venv/bin/activate && uv pip install pyyaml").success
    ∧ (true = true → (none : Option String) = none)
    ∧ (true = false → (none : Option String) = some (runWith (fun _ => .completed 0 "ok" "")
          "source .venv/bin/activate && uv pip install pyyaml").stderr) := by
  have h := dx_scenario_record_fields "uv" (fun _ => .completed 0 "ok" "")
    { name := "add_dependency", description := "Add a new dependency",
      command := "source .venv/bin/activate && uv pip install pyyaml",
      success := true, returncode := 0, error := none, output := "ok" }
    (by decide)
  exact h

end PyEnvBenchmark
